import Mathlib

/-!
Verification of `src/flight_booking_api.py`: a small flight-booking HTTP
service whose logic is an output validator driving a bounded retry loop,
pydantic field validation for seat choices, endpoint result mapping, and a
purchase-confirmation formatter.  Pure logic is embedded directly from the
source; the agent-framework run loop (which lives in the pydantic_ai
dependency, not in this repository) is modelled from the spec with the
constants (`retries=4`, `request_limit=15`) taken from the source.
-/

namespace FlightBooking

/-- Calendar date standing in for Python `datetime.date`: the source only
compares dates for equality and formats them ISO-style in messages. -/
structure Date where
  year : Nat
  month : Nat
  day : Nat
  deriving DecidableEq

/-- Zero-pad a numeral to two digits, as Python `str(date)` does for
month and day. -/
def pad2 (n : Nat) : String :=
  if n < 10 then "0" ++ toString n else toString n

/-- Zero-pad a numeral to four digits, as Python `str(date)` does for the
year. -/
def pad4 (n : Nat) : String :=
  if n < 10 then "000" ++ toString n
  else if n < 100 then "00" ++ toString n
  else if n < 1000 then "0" ++ toString n
  else toString n

/-- ISO rendering of a date, as Python `f-string` interpolation of a
`datetime.date` produces (e.g. `2025-01-10`). -/
def Date.isoString (d : Date) : String :=
  pad4 d.year ++ "-" ++ pad2 d.month ++ "-" ++ pad2 d.day

/-- `FlightDetails` (src lines 22-27). -/
structure FlightDetails where
  flight_number : String
  price : Int
  origin : String
  destination : String
  date : Date
  deriving DecidableEq

/-- `NoFlightFound` sentinel (src lines 29-30). -/
inductive NoFlightFound where
  | mk
  deriving DecidableEq

/-- `SeatPreference` field shapes (src lines 32-34); the pydantic
constraints `ge=1, le=30` and the seat-letter literal are enforced by
`mkSeatPreference` below, mirroring parse-time validation. -/
structure SeatPreference where
  row : Int
  seat : Char
  deriving DecidableEq

/-- `Failed` sentinel (src lines 36-37). -/
inductive Failed where
  | mk
  deriving DecidableEq

/-- `Deps` dataclass (src lines 39-44). -/
structure Deps where
  web_page_text : String
  req_origin : String
  req_destination : String
  req_date : Date

/-- The seat letters admitted by `Literal['A','B','C','D','E','F']`
(src line 34). -/
def seatLetters : List Char := ['A', 'B', 'C', 'D', 'E', 'F']

/-- Pydantic validation of a `SeatPreference` candidate (src lines 32-34):
`row` must satisfy `ge=1, le=30` and `seat` must be one of the literals;
a candidate outside the bounds is rejected, never adjusted. -/
def mkSeatPreference (row : Int) (seat : Char) : Option SeatPreference :=
  if 1 ≤ row ∧ row ≤ 30 ∧ seat ∈ seatLetters then some ⟨row, seat⟩ else none

/-- Modelled from the spec: the Seat-Preference Workflow outcome of a parsed
candidate — "Row must be in [1,30]; out-of-range requests are treated as
ParseFailure rather than being clamped or rounded" (§4.5).  The coercion of
a model reply into `SeatPreference | Failed` happens inside the agent
framework, not in `src/`; only the field constraints themselves are in the
source. -/
def seat_preference_parse (row : Int) (seat : Char) : SeatPreference ⊕ Failed :=
  match mkSeatPreference row seat with
  | some sp => Sum.inl sp
  | none => Sum.inr Failed.mk

/-- Python's `'\n'.join`: concatenation with a newline between elements. -/
def joinNewline : List String → String
  | [] => ""
  | [e] => e
  | e :: rest => e ++ "\n" ++ joinNewline rest

/-- The `errors` list built by `validate_output` (src lines 84-90): one
description per mismatching field, in source order. -/
def mismatch_errors (deps : Deps) (fd : FlightDetails) : List String :=
  (if fd.origin ≠ deps.req_origin then ["Origin mismatch: " ++ fd.origin] else []) ++
  (if fd.destination ≠ deps.req_destination then ["Destination mismatch: " ++ fd.destination] else []) ++
  (if fd.date ≠ deps.req_date then ["Date mismatch: " ++ fd.date.isoString] else [])

/-- `validate_output` (src lines 79-94): accept `NoFlightFound` as-is;
otherwise collect all field mismatches and either return the record
unchanged (no mismatch) or raise `ModelRetry` carrying the joined
descriptions, rendered here as `Except.error`. -/
def validate_output (deps : Deps) (output : FlightDetails ⊕ NoFlightFound) :
    Except String (FlightDetails ⊕ NoFlightFound) :=
  match output with
  | Sum.inr nf => Except.ok (Sum.inr nf)
  | Sum.inl fd =>
    if mismatch_errors deps fd = [] then Except.ok (Sum.inl fd)
    else Except.error (joinNewline (mismatch_errors deps fd))

/-- `msg` contains `sub` as a contiguous substring. -/
def Mentions (msg sub : String) : Prop := sub.data <:+: msg.data

instance (msg sub : String) : Decidable (Mentions msg sub) :=
  List.decidableInfix sub.data msg.data

/-- `UsageLimits` (only the field the source sets, src line 100). -/
structure UsageLimits where
  request_limit : Nat

/-- `usage_limits = UsageLimits(request_limit=15)` (src line 100). -/
def usage_limits : UsageLimits := ⟨15⟩

/-- `retries=4` on `search_agent` (src line 51). -/
def search_agent_retries : Nat := 4

/-- Terminal result of an agent run: either the validator accepted an
output, or the run stopped without one (retry ceiling or call budget hit). -/
inductive AgentResult (α : Type) where
  | accepted (out : α)
  | exhausted
  deriving DecidableEq

/-- Modelled from the spec: the agent-framework run loop (§4.4
`Searching → Validating → {Accepted, RetryRequested, Exhausted}`), which
lives in the pydantic_ai dependency rather than in `src/`.  Each cycle
`produce` yields the candidate outcome of that attempt and `cost` the
model requests the attempt consumes (extraction and search reasoning draw
on the one `usage` counter, as `extract_flights` passes `usage=ctx.usage`,
src line 75).  The run stops before any call that would exceed the request
limit; an accepted output ends the run; a validator rejection re-enters the
cycle while `retriesLeft` allows, else the run is exhausted.  Returns
(result, cycles executed, requests consumed). -/
def agentLoop {α : Type} (validate : α → Except String α) (produce : Nat → α)
    (cost : Nat → Nat) (limit : Nat) (attempt usage retriesLeft : Nat) :
    AgentResult α × Nat × Nat :=
  if limit < usage + cost attempt then (AgentResult.exhausted, attempt, usage)
  else
    match validate (produce attempt) with
    | Except.ok out => (AgentResult.accepted out, attempt + 1, usage + cost attempt)
    | Except.error _ =>
      match retriesLeft with
      | 0 => (AgentResult.exhausted, attempt + 1, usage + cost attempt)
      | r + 1 => agentLoop validate produce cost limit (attempt + 1) (usage + cost attempt) r

/-- The Search Workflow: `search_agent.run` with `validate_output` as output
validator, `retries=4` and `usage_limits` (src lines 48-54, 100, 121-126). -/
def search_agent_run (deps : Deps) (produce : Nat → FlightDetails ⊕ NoFlightFound)
    (cost : Nat → Nat) : AgentResult (FlightDetails ⊕ NoFlightFound) × Nat × Nat :=
  agentLoop (validate_output deps) produce cost usage_limits.request_limit 0 0 search_agent_retries

/-- The Seat-Preference Workflow: `seat_preference_agent.run` (src lines
62-71, 134-138).  This agent declares no output validator, so every
structurally valid output — `Failed` included — is accepted on the first
pass; the framework default retry allowance (1) is never consulted. -/
def seat_agent_run (produce : Nat → SeatPreference ⊕ Failed) (cost : Nat → Nat) :
    AgentResult (SeatPreference ⊕ Failed) × Nat × Nat :=
  agentLoop Except.ok produce cost usage_limits.request_limit 0 0 1

/-- Responses of the `/search_flight` endpoint as the caller sees them:
a success payload, a raised `HTTPException`, or an exception the endpoint
did not handle (propagated to the web framework as a server error). -/
inductive SearchResponse where
  | payload (fd : FlightDetails)
  | httpError (status : Nat) (detail : String)
  | unhandledError
  deriving DecidableEq

/-- True exactly for a 404 `HTTPException` response. -/
def SearchResponse.is404 : SearchResponse → Bool
  | SearchResponse.httpError 404 _ => true
  | _ => false

/-- Responses of the `/select_seat` endpoint. -/
inductive SeatResponse where
  | payload (sp : SeatPreference)
  | httpError (status : Nat) (detail : String)
  | unhandledError
  deriving DecidableEq

/-- `search_flight` endpoint result mapping (src lines 112-129): a
`NoFlightFound` output raises `HTTPException(404)`, a `FlightDetails`
output is returned as the payload.  An exhausted run never produces an
output — `result.output` has type `FlightDetails | NoFlightFound`, with no
exhausted variant — so exhaustion surfaces as an exception raised inside
`search_agent.run`; the endpoint installs no handler for it, hence it
propagates unhandled. -/
def search_flight (result : AgentResult (FlightDetails ⊕ NoFlightFound)) : SearchResponse :=
  match result with
  | AgentResult.accepted (Sum.inr _) => SearchResponse.httpError 404 "No flight found"
  | AgentResult.accepted (Sum.inl fd) => SearchResponse.payload fd
  | AgentResult.exhausted => SearchResponse.unhandledError

/-- `select_seat` endpoint result mapping (src lines 131-141): a `Failed`
output raises `HTTPException(400)`, a `SeatPreference` output is returned;
an exhausted run propagates unhandled as in `search_flight`. -/
def select_seat (result : AgentResult (SeatPreference ⊕ Failed)) : SeatResponse :=
  match result with
  | AgentResult.accepted (Sum.inr _) => SeatResponse.httpError 400 "Could not parse seat preference"
  | AgentResult.accepted (Sum.inl sp) => SeatResponse.payload sp
  | AgentResult.exhausted => SeatResponse.unhandledError

/-- `buy_ticket` endpoint (src lines 143-146): the confirmation message
`f"Purchased {flight.flight_number} seat {seat.row}{seat.seat}"`. -/
def buy_ticket (flight : FlightDetails) (seat : SeatPreference) : String :=
  "Purchased " ++ flight.flight_number ++ " seat " ++ toString seat.row ++ String.singleton seat.seat

/-! Example values used to instantiate theorems with hypotheses: a request
for CDG→JFK on 2025-01-11 together with a matching record, a record wrong
in both origin and date, and a record agreeing with the matching one only
on the flight number. -/

/-- Example search constraints: CDG→JFK on 2025-01-11. -/
def exDeps : Deps := ⟨"page", "CDG", "JFK", ⟨2025, 1, 11⟩⟩

/-- Example record matching `exDeps` on all three constrained fields. -/
def exMatchingFlight : FlightDetails := ⟨"AF123", 100, "CDG", "JFK", ⟨2025, 1, 11⟩⟩

/-- Example record wrong in both origin and date relative to `exDeps`. -/
def exWrongFlight : FlightDetails := ⟨"AF123", 100, "ORY", "JFK", ⟨2025, 1, 10⟩⟩

/-- The feedback `validate_output` produces for `exWrongFlight` under
`exDeps`. -/
def exMismatchMsg : String := "Origin mismatch: ORY\nDate mismatch: 2025-01-10"

/-- Example record sharing only the flight number with
`exMatchingFlight`. -/
def exOtherDetails : FlightDetails := ⟨"AF123", 999, "NCE", "LHR", ⟨2026, 2, 3⟩⟩

/-- Example seat: row 1, seat A. -/
def exSeat1A : SeatPreference := ⟨1, 'A'⟩

/-! Helper lemmas about `Mentions`, `joinNewline` and `agentLoop`. -/

theorem mentions_refl (s : String) : Mentions s s :=
  List.infix_refl s.data

theorem mentions_append_left (a b s : String) (h : Mentions a s) : Mentions (a ++ b) s := by
  unfold Mentions at h ⊢
  rw [String.data_append]
  exact h.trans (List.prefix_append a.data b.data).isInfix

theorem mentions_append_right (a b s : String) (h : Mentions b s) : Mentions (a ++ b) s := by
  unfold Mentions at h ⊢
  rw [String.data_append]
  exact h.trans (List.suffix_append a.data b.data).isInfix

theorem mentions_joinNewline (l : List String) (e : String) (he : e ∈ l) :
    Mentions (joinNewline l) e := by
  induction l with
  | nil => cases he
  | cons x xs ih =>
    cases xs with
    | nil =>
      rcases List.mem_singleton.mp he with rfl
      exact mentions_refl e
    | cons y ys =>
      rcases List.mem_cons.mp he with rfl | htail
      · exact mentions_append_left _ _ _ (mentions_append_left _ _ _ (mentions_refl e))
      · exact mentions_append_right _ _ _ (ih htail)

theorem agentLoop_usage_le {α : Type} (v : α → Except String α) (p : Nat → α)
    (c : Nat → Nat) (limit : Nat) :
    ∀ (r a u : Nat), u ≤ limit → (agentLoop v p c limit a u r).2.2 ≤ limit := by
  intro r
  induction r with
  | zero =>
    intro a u hu
    rw [agentLoop]
    split
    · exact hu
    · rename_i hle
      have h' : u + c a ≤ limit := Nat.le_of_not_lt hle
      split
      · exact h'
      · exact h'
  | succ r ih =>
    intro a u hu
    rw [agentLoop]
    split
    · exact hu
    · rename_i hle
      have h' : u + c a ≤ limit := Nat.le_of_not_lt hle
      split
      · exact h'
      · exact ih _ _ h'

theorem agentLoop_attempts_le {α : Type} (v : α → Except String α) (p : Nat → α)
    (c : Nat → Nat) (limit : Nat) :
    ∀ (r a u : Nat), (agentLoop v p c limit a u r).2.1 ≤ a + r + 1 := by
  intro r
  induction r with
  | zero =>
    intro a u
    rw [agentLoop]
    split
    · dsimp only
      omega
    · split
      · dsimp only
        omega
      · dsimp only
        omega
  | succ r ih =>
    intro a u
    rw [agentLoop]
    split
    · dsimp only
      omega
    · split
      · dsimp only
        omega
      · have := ih (a + 1) (u + c a)
        omega

theorem agentLoop_exhausted_of_reject {α : Type} (v : α → Except String α) (p : Nat → α)
    (c : Nat → Nat) (limit : Nat) (h : ∀ n, ∃ m, v (p n) = Except.error m) :
    ∀ (r a u : Nat), (agentLoop v p c limit a u r).1 = AgentResult.exhausted := by
  intro r
  induction r with
  | zero =>
    intro a u
    rw [agentLoop]
    split
    · rfl
    · split
      · rename_i out heq
        obtain ⟨m, hm⟩ := h a
        rw [hm] at heq
        cases heq
      · rfl
  | succ r ih =>
    intro a u
    rw [agentLoop]
    split
    · rfl
    · split
      · rename_i out heq
        obtain ⟨m, hm⟩ := h a
        rw [hm] at heq
        cases heq
      · exact ih (a + 1) (u + c a)

theorem mismatch_errors_eq_nil_iff (deps : Deps) (fd : FlightDetails) :
    mismatch_errors deps fd = [] ↔
      (fd.origin = deps.req_origin ∧ fd.destination = deps.req_destination ∧
        fd.date = deps.req_date) := by
  unfold mismatch_errors
  by_cases h1 : fd.origin = deps.req_origin <;>
    by_cases h2 : fd.destination = deps.req_destination <;>
      by_cases h3 : fd.date = deps.req_date <;>
        simp [h1, h2, h3]

/-- C1: the Constraint Validator accepts exactly when the outcome is
`NoFlightFound` or the record's origin, destination and date each equal the
corresponding constraint; in every other case it raises a retry signal
(`Except.error`) instead of returning, so a mismatching record is never
accepted. -/
theorem validate_output_accept_iff :
    ∀ (deps : Deps) (out : FlightDetails ⊕ NoFlightFound),
      ((∃ r, validate_output deps out = Except.ok r) ↔
        (out = Sum.inr NoFlightFound.mk ∨
          ∃ fd, out = Sum.inl fd ∧ fd.origin = deps.req_origin ∧
            fd.destination = deps.req_destination ∧ fd.date = deps.req_date)) ∧
      (∀ fd, out = Sum.inl fd →
        (fd.origin ≠ deps.req_origin ∨ fd.destination ≠ deps.req_destination ∨
          fd.date ≠ deps.req_date) →
        ∃ msg, validate_output deps out = Except.error msg) := by
  intro deps out
  cases out with
  | inr nf =>
    cases nf
    refine ⟨?_, ?_⟩
    · simp [validate_output]
    · intro fd hfd
      exact Sum.noConfusion hfd
  | inl fd =>
    refine ⟨?_, ?_⟩
    · constructor
      · rintro ⟨r, hr⟩
        simp only [validate_output] at hr
        by_cases hm : mismatch_errors deps fd = []
        · have h := (mismatch_errors_eq_nil_iff deps fd).mp hm
          exact Or.inr ⟨fd, rfl, h.1, h.2.1, h.2.2⟩
        · rw [if_neg hm] at hr
          cases hr
      · rintro (h | ⟨fd', hfd', h1, h2, h3⟩)
        · exact Sum.noConfusion h
        · cases hfd'
          have hm : mismatch_errors deps fd = [] :=
            (mismatch_errors_eq_nil_iff deps fd).mpr ⟨h1, h2, h3⟩
          refine ⟨Sum.inl fd, ?_⟩
          simp only [validate_output]
          rw [if_pos hm]
    · intro fd' hfd' hne
      cases hfd'
      have hm : mismatch_errors deps fd ≠ [] := by
        intro hnil
        have hall := (mismatch_errors_eq_nil_iff deps fd).mp hnil
        rcases hne with h | h | h
        · exact h hall.1
        · exact h hall.2.1
        · exact h hall.2.2
      refine ⟨joinNewline (mismatch_errors deps fd), ?_⟩
      simp only [validate_output]
      rw [if_neg hm]

/-- C2: when the validator rejects, the joined feedback mentions the
description of every mismatching field — origin, destination and date —
not only the first one found. -/
theorem validate_output_reports_every_mismatch (deps : Deps) (fd : FlightDetails)
    (msg : String) (h : validate_output deps (Sum.inl fd) = Except.error msg) :
    (fd.origin ≠ deps.req_origin → Mentions msg ("Origin mismatch: " ++ fd.origin)) ∧
    (fd.destination ≠ deps.req_destination →
      Mentions msg ("Destination mismatch: " ++ fd.destination)) ∧
    (fd.date ≠ deps.req_date → Mentions msg ("Date mismatch: " ++ fd.date.isoString)) := by
  have hmsg : msg = joinNewline (mismatch_errors deps fd) := by
    simp only [validate_output] at h
    by_cases hm : mismatch_errors deps fd = []
    · rw [if_pos hm] at h
      cases h
    · rw [if_neg hm] at h
      cases h
      rfl
  subst hmsg
  refine ⟨?_, ?_, ?_⟩ <;> intro hne <;> apply mentions_joinNewline <;>
    simp only [mismatch_errors]
  · exact List.mem_append_left _ (List.mem_append_left _ (by simp [hne]))
  · exact List.mem_append_left _ (List.mem_append_right _ (by simp [hne]))
  · exact List.mem_append_right _ (by simp [hne])

/-- Witness for C2: a record wrong in both origin and date yields feedback
mentioning both mismatches. -/
theorem validate_output_reports_every_mismatch_witness :
    exWrongFlight.origin ≠ exDeps.req_origin ∧
    exWrongFlight.date ≠ exDeps.req_date ∧
    Mentions exMismatchMsg ("Origin mismatch: " ++ "ORY") ∧
    Mentions exMismatchMsg ("Date mismatch: " ++ "2025-01-10") :=
  ⟨by decide, by decide,
    (validate_output_reports_every_mismatch exDeps exWrongFlight exMismatchMsg rfl).1
      (by decide),
    (validate_output_reports_every_mismatch exDeps exWrongFlight exMismatchMsg rfl).2.2
      (by decide)⟩

/-- C10: when the validator accepts, it returns exactly the outcome it was
given — no field is normalized or rewritten. -/
theorem validate_output_identity_on_accept (deps : Deps)
    (out r : FlightDetails ⊕ NoFlightFound)
    (h : validate_output deps out = Except.ok r) : r = out := by
  cases out with
  | inr nf =>
    simp only [validate_output] at h
    cases h
    rfl
  | inl fd =>
    simp only [validate_output] at h
    by_cases hm : mismatch_errors deps fd = []
    · rw [if_pos hm] at h
      cases h
      rfl
    · rw [if_neg hm] at h
      cases h

/-- Witness for C10: a fully matching record is accepted and handed back
unchanged. -/
theorem validate_output_identity_on_accept_witness :
    validate_output exDeps (Sum.inl exMatchingFlight) =
      Except.ok (Sum.inl exMatchingFlight) ∧
    (Sum.inl exMatchingFlight : FlightDetails ⊕ NoFlightFound) =
      Sum.inl exMatchingFlight :=
  ⟨rfl, validate_output_identity_on_accept exDeps _ _ rfl⟩

/-- C3: when validation rejects every candidate, the Search Workflow
re-enters the Searching/Validating cycle at most `search_agent_retries = 4`
times after the initial attempt (at most `1 + 4` cycles in total, never a
5th retry) and ends in the terminal `exhausted` result, which is distinct
from a clean accepted `NoFlightFound`. -/
theorem search_workflow_exhausts_after_four_retries (deps : Deps)
    (produce : Nat → FlightDetails ⊕ NoFlightFound) (cost : Nat → Nat)
    (h : ∀ n, ∃ m, validate_output deps (produce n) = Except.error m) :
    search_agent_retries = 4 ∧
    (search_agent_run deps produce cost).2.1 ≤ 1 + search_agent_retries ∧
    (search_agent_run deps produce cost).1 = AgentResult.exhausted ∧
    (search_agent_run deps produce cost).1 ≠
      AgentResult.accepted (Sum.inr NoFlightFound.mk) := by
  have hatt := agentLoop_attempts_le (validate_output deps) produce cost
    usage_limits.request_limit search_agent_retries 0 0
  have hex := agentLoop_exhausted_of_reject (validate_output deps) produce cost
    usage_limits.request_limit h search_agent_retries 0 0
  refine ⟨rfl, ?_, hex, ?_⟩
  · unfold search_agent_run
    omega
  · unfold search_agent_run at hex ⊢
    rw [hex]
    intro hc
    cases hc

/-- Witness for C3: with extraction always yielding a record whose origin
(and date) is wrong, the workflow runs exactly 5 cycles — the initial one
plus 4 retries — and is exhausted, not a clean NotFound. -/
theorem search_workflow_exhausts_after_four_retries_witness :
    (search_agent_run exDeps (fun _ => Sum.inl exWrongFlight) (fun _ => 1)).2.1 = 5 ∧
    (search_agent_run exDeps (fun _ => Sum.inl exWrongFlight) (fun _ => 1)).1 =
      AgentResult.exhausted ∧
    (search_agent_run exDeps (fun _ => Sum.inl exWrongFlight) (fun _ => 1)).1 ≠
      AgentResult.accepted (Sum.inr NoFlightFound.mk) :=
  ⟨by decide,
    (search_workflow_exhausts_after_four_retries exDeps
      (fun _ => Sum.inl exWrongFlight) (fun _ => 1)
      (fun _ => ⟨exMismatchMsg, rfl⟩)).2.2.1,
    (search_workflow_exhausts_after_four_retries exDeps
      (fun _ => Sum.inl exWrongFlight) (fun _ => 1)
      (fun _ => ⟨exMismatchMsg, rfl⟩)).2.2.2⟩

/-- C4: every Search Workflow run draws all model calls — extraction and
search reasoning alike — from the single usage counter bounded by
`usage_limits.request_limit = 15`, and terminates in either an accepted
outcome or exhaustion. -/
theorem search_workflow_budget (deps : Deps)
    (produce : Nat → FlightDetails ⊕ NoFlightFound) (cost : Nat → Nat) :
    usage_limits.request_limit = 15 ∧
    (search_agent_run deps produce cost).2.2 ≤ usage_limits.request_limit ∧
    ((∃ out, (search_agent_run deps produce cost).1 = AgentResult.accepted out) ∨
      (search_agent_run deps produce cost).1 = AgentResult.exhausted) := by
  refine ⟨rfl, ?_, ?_⟩
  · exact agentLoop_usage_le (validate_output deps) produce cost
      usage_limits.request_limit search_agent_retries 0 0 (Nat.zero_le _)
  · cases hres : (search_agent_run deps produce cost).1 with
    | accepted out => exact Or.inl ⟨out, rfl⟩
    | exhausted => exact Or.inr rfl

/-- C5: a `SeatChoice` comes out of seat parsing exactly when the row is in
[1, 30] and the seat letter is one of A–F; rows 0 and 31 both produce the
`Failed` (ParseFailure) outcome, and an accepted row is returned verbatim,
never clamped or rounded. -/
theorem seat_row_bounds :
    ∀ (row : Int) (seat : Char),
      ((∃ sp, seat_preference_parse row seat = Sum.inl sp) ↔
        (1 ≤ row ∧ row ≤ 30 ∧ seat ∈ seatLetters)) ∧
      (seat_preference_parse 0 seat = Sum.inr Failed.mk) ∧
      (seat_preference_parse 31 seat = Sum.inr Failed.mk) ∧
      (∀ sp, seat_preference_parse row seat = Sum.inl sp →
        sp.row = row ∧ sp.seat = seat) := by
  intro row seat
  have h0 : ¬(1 ≤ (0 : Int) ∧ (0 : Int) ≤ 30 ∧ seat ∈ seatLetters) := by
    rintro ⟨h, _⟩
    exact absurd h (by decide)
  have h31 : ¬(1 ≤ (31 : Int) ∧ (31 : Int) ≤ 30 ∧ seat ∈ seatLetters) := by
    rintro ⟨_, h, _⟩
    exact absurd h (by decide)
  refine ⟨?_, ?_, ?_, ?_⟩
  · by_cases hc : 1 ≤ row ∧ row ≤ 30 ∧ seat ∈ seatLetters
    · simp [seat_preference_parse, mkSeatPreference, hc]
    · simp [seat_preference_parse, mkSeatPreference, hc]
  · simp [seat_preference_parse, mkSeatPreference, h0]
  · simp [seat_preference_parse, mkSeatPreference, h31]
  · intro sp hsp
    by_cases hc : 1 ≤ row ∧ row ≤ 30 ∧ seat ∈ seatLetters
    · simp only [seat_preference_parse, mkSeatPreference, if_pos hc] at hsp
      cases hsp
      exact ⟨rfl, rfl⟩
    · simp only [seat_preference_parse, mkSeatPreference, if_neg hc] at hsp
      cases hsp

/-- C6 counterexample: an exhausted search run does not produce the
"not found" (404) response — the endpoint only maps the `NoFlightFound`
output to 404, and exhaustion surfaces as an exception it does not handle. -/
theorem search_flight_exhausted_not_found_class :
    search_flight AgentResult.exhausted = SearchResponse.unhandledError ∧
    (search_flight AgentResult.exhausted).is404 = false ∧
    SearchResponse.unhandledError ≠ SearchResponse.httpError 404 "No flight found" :=
  ⟨rfl, rfl, by decide⟩

/-- C6 (amended): the request boundary maps an accepted `FlightDetails` to
the success payload, an accepted `NoFlightFound` to the 404 "No flight
found" error, and a `Failed` seat parse to the 400 "Could not parse seat
preference" error; an exhausted search run propagates as an unhandled
error, which is not a 404-class response. -/
theorem request_boundary_mapping :
    (∀ fd, search_flight (AgentResult.accepted (Sum.inl fd)) =
      SearchResponse.payload fd) ∧
    (search_flight (AgentResult.accepted (Sum.inr NoFlightFound.mk)) =
      SearchResponse.httpError 404 "No flight found") ∧
    ((search_flight (AgentResult.accepted (Sum.inr NoFlightFound.mk))).is404 = true) ∧
    (search_flight AgentResult.exhausted = SearchResponse.unhandledError) ∧
    ((search_flight AgentResult.exhausted).is404 = false) ∧
    (∀ sp, select_seat (AgentResult.accepted (Sum.inl sp)) =
      SeatResponse.payload sp) ∧
    (select_seat (AgentResult.accepted (Sum.inr Failed.mk)) =
      SeatResponse.httpError 400 "Could not parse seat preference") :=
  ⟨fun _ => rfl, rfl, rfl, rfl, rfl, fun _ => rfl, rfl⟩

/-- C7: the Seat-Preference Workflow is a single-pass parse — the seat
agent has no output validator, so whatever outcome the first pass produces
(`Failed` included) is returned immediately as the accepted result after
exactly one cycle; no retry is ever attempted. -/
theorem seat_workflow_single_pass (produce : Nat → SeatPreference ⊕ Failed)
    (cost : Nat → Nat) (h : cost 0 ≤ usage_limits.request_limit) :
    seat_agent_run produce cost = (AgentResult.accepted (produce 0), 1, cost 0) := by
  have hlt : ¬ usage_limits.request_limit < 0 + cost 0 := by omega
  rw [seat_agent_run, agentLoop, if_neg hlt]
  simp

/-- Witness for C7: a first pass producing `Failed` is reported immediately
as the outcome of the single cycle. -/
theorem seat_workflow_single_pass_witness :
    seat_agent_run (fun _ => Sum.inr Failed.mk) (fun _ => 1) =
      (AgentResult.accepted (Sum.inr Failed.mk), 1, 1) :=
  seat_workflow_single_pass (fun _ => Sum.inr Failed.mk) (fun _ => 1) (by decide)

/-- C8: `buy_ticket` always succeeds, returning the confirmation message
that contains the flight number and the row-plus-seat-letter verbatim; in
particular flight "AF123" with seat 1A yields a message containing "AF123"
and "1A". -/
theorem buy_ticket_message :
    ∀ (flight : FlightDetails) (seat : SeatPreference),
      buy_ticket flight seat =
        "Purchased " ++ flight.flight_number ++ " seat " ++ toString seat.row ++
          String.singleton seat.seat ∧
      Mentions (buy_ticket flight seat) flight.flight_number ∧
      Mentions (buy_ticket flight seat)
        (toString seat.row ++ String.singleton seat.seat) ∧
      Mentions (buy_ticket exMatchingFlight exSeat1A) "AF123" ∧
      Mentions (buy_ticket exMatchingFlight exSeat1A) "1A" := by
  intro flight seat
  refine ⟨rfl, ?_, ?_, by decide, by decide⟩
  · exact mentions_append_left _ _ _ (mentions_append_left _ _ _
      (mentions_append_left _ _ _ (mentions_append_right _ _ _ (mentions_refl _))))
  · have hassoc := String.append_assoc
      ("Purchased " ++ flight.flight_number ++ " seat ")
      (toString seat.row) (String.singleton seat.seat)
    simp only [buy_ticket]
    rw [hassoc]
    exact mentions_append_right _ _ _ (mentions_refl _)

/-- C9: the confirmation message depends only on the flight number, the
seat row and the seat letter — two purchases agreeing on those three fields
produce identical messages even when price, origin, destination or date
differ. -/
theorem buy_ticket_key_fields_only (f1 f2 : FlightDetails) (s1 s2 : SeatPreference)
    (hf : f1.flight_number = f2.flight_number) (hr : s1.row = s2.row)
    (hs : s1.seat = s2.seat) : buy_ticket f1 s1 = buy_ticket f2 s2 := by
  simp [buy_ticket, hf, hr, hs]

/-- Witness for C9: two records sharing only the flight number (price,
origin, destination, date all differ) give the same confirmation. -/
theorem buy_ticket_key_fields_only_witness :
    buy_ticket exMatchingFlight exSeat1A = buy_ticket exOtherDetails exSeat1A :=
  buy_ticket_key_fields_only exMatchingFlight exOtherDetails exSeat1A exSeat1A
    rfl rfl rfl

end FlightBooking
